import Mathlib

/-!
Shallow embedding of the agent control-loop design of the ai-pm repository.
The control logic lives as Python pseudocode in
src/docs/architecture/geisinger-module-design.md (orchestrator, executor,
self-verifier, context budget manager, compaction service, tool executor) and
src/docs/architecture/refined-hitl-interaction-architecture.md (tier
classification engine).  Each definition below mirrors one of those code
blocks; abstract helper routines whose bodies the source does not give
(LLM calls, storage backends) become fields of an environment structure.
-/

namespace SelfVerify

/-- Result of one verification check, as produced by the `_check_*` routines of
`SelfVerifier` (geisinger-module-design.md, M1).  The source reads both
`check.passed` and `check.failed`; `failed` is the negation of `passed`.
`score` carries the confidence check's scalar. -/
structure Check where
  passed : Bool
  critical : Bool
  score : Int := 0
  deriving Repr, DecidableEq

/-- The source's `check.failed`. -/
def Check.failed (c : Check) : Bool := !c.passed

/-- The slice of `Plan` the verifier reads: `plan.requirements` and
`plan.has_more_steps`. -/
structure Plan where
  requirements : List String
  hasMoreSteps : Bool
  deriving Repr, DecidableEq

/-- `VerificationResult` as constructed at the end of `SelfVerifier.verify`. -/
structure VerificationResult where
  passed : Bool
  checks : List Check
  complete : Bool
  shouldEscalate : Bool
  confidenceScore : Int
  issues : List String
  deriving Repr, DecidableEq

/-- The six check routines of `SelfVerifier` plus its `_extract_issues`
helper.  Their bodies are LLM/blueprint consultations the source leaves
abstract, so they are fields here.  `Result` is the executed
`ExecutionResult` type and `Ctx` the `ExecutionContext` type; each routine
receives the whole context and can project the fields the source passes
(meta blueprint, history, domain standards). -/
structure SelfVerifier (Result Ctx : Type) where
  checkPolicyCompliance : Result → Ctx → Check
  checkCompleteness : Result → List String → Check
  checkConsistency : Result → Ctx → Check
  checkQuality : Result → Ctx → Check
  assessConfidence : Result → Ctx → Check
  checkSafety : Result → Ctx → Check
  extractIssues : List Check → List String

/-- `SelfVerifier.verify` (geisinger-module-design.md lines 358-431): run the
six checks in order, then aggregate: `all_passed = all(check.passed)`,
`critical_failed = any(check.failed and check.critical)`, and build the
`VerificationResult` with `complete = all_passed and not plan.has_more_steps`. -/
def SelfVerifier.verify {Result Ctx : Type} (sv : SelfVerifier Result Ctx)
    (result : Result) (plan : Plan) (ctx : Ctx) : VerificationResult :=
  let policyCheck := sv.checkPolicyCompliance result ctx
  let completenessCheck := sv.checkCompleteness result plan.requirements
  let consistencyCheck := sv.checkConsistency result ctx
  let qualityCheck := sv.checkQuality result ctx
  let confidenceCheck := sv.assessConfidence result ctx
  let safetyCheck := sv.checkSafety result ctx
  let checks := [policyCheck, completenessCheck, consistencyCheck,
                 qualityCheck, confidenceCheck, safetyCheck]
  let allPassed := checks.all fun c => c.passed
  let criticalFailed := checks.any fun c => c.failed && c.critical
  { passed := allPassed
    checks := checks
    complete := allPassed && !plan.hasMoreSteps
    shouldEscalate := criticalFailed
    confidenceScore := confidenceCheck.score
    issues := sv.extractIssues checks }

end SelfVerify

namespace Tier

/-- Impact attribute derived by `assess_impact`. -/
inductive Impact where
  | LOW | MEDIUM | HIGH
  deriving Repr, DecidableEq

/-- Reversibility attribute derived by `assess_reversibility`. -/
inductive Reversibility where
  | FULL | PARTIAL | NONE
  deriving Repr, DecidableEq

/-- Data-sensitivity attribute derived by `assess_data_sensitivity`.  The
source compares against the string "PHI" for its most sensitive level; the
spec calls the scale PUBLIC..RESTRICTED, so `RESTRICTED` here is the level the
source writes as "PHI". -/
inductive Sensitivity where
  | PUBLIC | INTERNAL | CONFIDENTIAL | RESTRICTED
  deriving Repr, DecidableEq

/-- The four HITL tiers. -/
inductive HITLTier where
  | TIER_1 | TIER_2 | TIER_3 | TIER_4
  deriving Repr, DecidableEq

/-- Numeric level of a tier, for stating monotonicity. -/
def HITLTier.level : HITLTier → Nat
  | .TIER_1 => 1
  | .TIER_2 => 2
  | .TIER_3 => 3
  | .TIER_4 => 4

/-- An action as the classifier sees it: the triple of derived attributes. -/
structure Action where
  impact : Impact
  reversibility : Reversibility
  dataSensitivity : Sensitivity
  deriving Repr, DecidableEq

/-- `TierClassificationEngine.classify_action`
(refined-hitl-interaction-architecture.md lines 223-250), after attribute
derivation: `if impact == "LOW" and reversibility == "FULL": TIER_1; elif
impact == "MEDIUM" and reversibility in ["FULL", "PARTIAL"]: TIER_2; elif
impact == "HIGH" or data_sensitivity == "PHI": TIER_3; else: TIER_4`. -/
def classifyAction (a : Action) : HITLTier :=
  if a.impact = .LOW ∧ a.reversibility = .FULL then .TIER_1
  else if a.impact = .MEDIUM ∧ (a.reversibility = .FULL ∨ a.reversibility = .PARTIAL) then .TIER_2
  else if a.impact = .HIGH ∨ a.dataSensitivity = .RESTRICTED then .TIER_3
  else .TIER_4

/-- Modelled from the spec: the four-row decision table of spec section 4.5,
evaluated top-down with first match winning — (LOW, FULL, any) gives tier 1;
(MEDIUM, FULL or PARTIAL, not RESTRICTED) gives tier 2; (HIGH, any, any)
gives tier 3; (any, NONE, RESTRICTED) gives tier 4.  Stated from the spec's
words only, for comparison with `classifyAction`; `none` when no row
matches. -/
def specTierTable (a : Action) : Option HITLTier :=
  if a.impact = .LOW ∧ a.reversibility = .FULL then some .TIER_1
  else if a.impact = .MEDIUM ∧ (a.reversibility = .FULL ∨ a.reversibility = .PARTIAL) ∧
      a.dataSensitivity ≠ .RESTRICTED then some .TIER_2
  else if a.impact = .HIGH then some .TIER_3
  else if a.reversibility = .NONE ∧ a.dataSensitivity = .RESTRICTED then some .TIER_4
  else none

end Tier

namespace Budget

/-- The `status` field of `BudgetCheckResult`. -/
inductive BudgetStatus where
  | OVER_ALLOCATION | WARNING | APPROVED
  deriving Repr, DecidableEq

/-- The `action` field of `BudgetCheckResult`. -/
inductive BudgetDirective where
  | TRIGGER_COMPACTION | APPROACHING_LIMIT | PROCEED
  deriving Repr, DecidableEq

/-- `BudgetCheckResult` as constructed by `check_budget`. -/
structure BudgetCheckResult where
  status : BudgetStatus
  action : BudgetDirective
  deriving Repr, DecidableEq

/-- `ContextBudgetManager` (geisinger-module-design.md lines 597-648) with the
initial values of its `__init__`: a 200000-token total budget, the fixed
category allocation dictionary, and `used = 0`. -/
structure ContextBudgetManager where
  totalBudget : Nat := 200000
  allocations : List (String × Nat) :=
    [("meta_blueprint", 2000), ("working_memory", 50000), ("tool_results", 30000),
     ("blueprints", 20000), ("reasoning", 40000), ("output", 10000),
     ("safety", 8000), ("dynamic", 40000)]
  used : Nat := 0
  deriving Repr, DecidableEq

/-- `ContextBudgetManager.check_budget`: `allocated = allocations.get(category, 0)`;
`OVER_ALLOCATION / TRIGGER_COMPACTION` when `requested > allocated`;
`WARNING / APPROACHING_LIMIT` when `used + requested > total_budget * 0.8`
(written here as `5 * (used + requested) > 4 * total_budget`, the same
comparison over integers); else `APPROVED / PROCEED`.  The source also
computes an unused `available = total_budget - used`.  The method reads the
manager and returns a result; it performs no write. -/
def ContextBudgetManager.checkBudget (m : ContextBudgetManager)
    (category : String) (requested : Nat) : BudgetCheckResult :=
  let allocated := (m.allocations.lookup category).getD 0
  if requested > allocated then
    { status := .OVER_ALLOCATION, action := .TRIGGER_COMPACTION }
  else if 5 * (m.used + requested) > 4 * m.totalBudget then
    { status := .WARNING, action := .APPROACHING_LIMIT }
  else
    { status := .APPROVED, action := .PROCEED }

/-- `ContextBudgetManager.allocate`: `self.used += amount`, unconditionally;
the `category` argument is ignored by the source body as well. -/
def ContextBudgetManager.allocate (m : ContextBudgetManager)
    (category : String) (amount : Nat) : ContextBudgetManager :=
  { m with used := m.used + amount }

/-- `ContextBudgetManager.release`: `self.used = max(0, self.used - amount)`;
truncated subtraction on `Nat` is exactly that. -/
def ContextBudgetManager.release (m : ContextBudgetManager)
    (category : String) (amount : Nat) : ContextBudgetManager :=
  { m with used := m.used - amount }

/-- One operation of a client-visible sequence against the manager. -/
inductive BudgetOp where
  | check (category : String) (requested : Nat)
  | alloc (category : String) (amount : Nat)
  deriving Repr, DecidableEq

/-- Run a sequence of `check_budget` / `allocate` calls.  `check_budget`
returns a result but leaves the manager unchanged; `allocate` applies its
write. -/
def runOps (m : ContextBudgetManager) : List BudgetOp → ContextBudgetManager
  | [] => m
  | BudgetOp.check _ _ :: ops => runOps m ops
  | BudgetOp.alloc c n :: ops => runOps (m.allocate c n) ops

end Budget

namespace Exec

/-- Exceptions a tool call can raise.  `toolExecutionError` is the
`ToolExecutionError` the source catches; `otherError` stands for any other
exception type (a `ValueError`, a `KeyError`, ...), which the source's
`except ToolExecutionError` clause does not catch. -/
inductive ToolError where
  | toolExecutionError (msg : String)
  | otherError (msg : String)
  deriving Repr, DecidableEq

/-- Status of a step or of a whole execution. -/
inductive RunStatus where
  | SUCCESS | FAILED
  deriving Repr, DecidableEq

/-- `PlanStep`: tool identifier, parameters, `critical` and `parallel_safe`
flags. -/
structure PlanStep where
  toolId : String
  parameters : List (String × String)
  critical : Bool
  parallelSafe : Bool
  deriving Repr, DecidableEq

/-- `StepResult`.  The success branch of `_execute_sequential` sets `status`,
`output` (and a duration read off the tool result, elided here); the failure
branch sets `status`, `error` and `failure=True`; unset dataclass fields keep
their defaults. -/
structure StepResult (ToolResult : Type) where
  step : PlanStep
  status : RunStatus
  output : Option ToolResult := none
  error : Option String := none
  failure : Bool := false
  deriving Repr, DecidableEq

/-- The slice of `Plan` the executor reads: its ordered steps. -/
structure Plan where
  steps : List PlanStep
  deriving Repr, DecidableEq

/-- `ExecutionResult`: per-step results, overall status, aggregated output on
success, failure reason on abort. -/
structure ExecutionResult (ToolResult Output : Type) where
  steps : List (StepResult ToolResult)
  status : RunStatus
  output : Option Output := none
  failureReason : Option String := none
  deriving Repr, DecidableEq

/-- Collaborators of `Executor` whose bodies the source leaves abstract:
`toolExecute` is `tool_framework.get_tool(step.tool_id)` followed by
`tool.execute(parameters, context)` (either may raise); `executeParallel` is
`_execute_parallel`, whose body the source does not show; `addStepResult` is
`context.add_step_result`; `aggregateOutputs` is `_aggregate_outputs`. -/
structure ExecEnv (Ctx ToolResult Output : Type) where
  toolExecute : String → List (String × String) → Ctx → Except ToolError ToolResult
  executeParallel : PlanStep → Ctx → Except ToolError (StepResult ToolResult)
  addStepResult : Ctx → StepResult ToolResult → Ctx
  aggregateOutputs : List (StepResult ToolResult) → Output

/-- `Executor._execute_sequential` (geisinger-module-design.md lines 323-353):
execute the tool inside `try`; a raised `ToolExecutionError` becomes a
`StepResult` with status FAILED and `failure=True`; any other exception is
not caught and propagates. -/
def executeSequential {Ctx ToolResult Output : Type} (env : ExecEnv Ctx ToolResult Output)
    (step : PlanStep) (ctx : Ctx) : Except ToolError (StepResult ToolResult) :=
  match env.toolExecute step.toolId step.parameters ctx with
  | .ok toolResult =>
      .ok { step := step, status := .SUCCESS, output := some toolResult }
  | .error (.toolExecutionError e) =>
      .ok { step := step, status := .FAILED, error := some e, failure := true }
  | .error e => .error e

/-- The per-step dispatch of `Executor.execute_plan`: `_execute_parallel` when
`step.parallel_safe`, otherwise `_execute_sequential`. -/
def dispatchStep {Ctx ToolResult Output : Type} (env : ExecEnv Ctx ToolResult Output)
    (step : PlanStep) (ctx : Ctx) : Except ToolError (StepResult ToolResult) :=
  if step.parallelSafe then env.executeParallel step ctx
  else executeSequential env step ctx

/-- The loop body of `Executor.execute_plan` (geisinger-module-design.md lines
281-321), with the accumulated `results` list and the threaded context made
explicit: append each step result, update the context, and
`if step_result.failure and step.critical` return an `ExecutionResult` with
status FAILED and the results so far; when the steps are exhausted return
status SUCCESS with the aggregated outputs. -/
def executePlanAux {Ctx ToolResult Output : Type} (env : ExecEnv Ctx ToolResult Output) :
    List PlanStep → Ctx → List (StepResult ToolResult) →
    Except ToolError (ExecutionResult ToolResult Output)
  | [], _ctx, results =>
      .ok { steps := results, status := .SUCCESS,
            output := some (env.aggregateOutputs results) }
  | step :: rest, ctx, results =>
      match dispatchStep env step ctx with
      | .error e => .error e
      | .ok stepResult =>
          let results' := results ++ [stepResult]
          let ctx' := env.addStepResult ctx stepResult
          if stepResult.failure && step.critical then
            .ok { steps := results', status := .FAILED,
                  failureReason := stepResult.error }
          else
            executePlanAux env rest ctx' results'

/-- `Executor.execute_plan`: run the plan's steps from an empty result list. -/
def executePlan {Ctx ToolResult Output : Type} (env : ExecEnv Ctx ToolResult Output)
    (plan : Plan) (ctx : Ctx) : Except ToolError (ExecutionResult ToolResult Output) :=
  executePlanAux env plan.steps ctx []

/-- Replay of the executor loop over an initial segment of the plan, recording
the step results and the threaded context, and returning `none` as soon as the
loop would abort (a raised exception or a critical failure).  Proof
scaffolding used to state where the loop stands when a later step fails. -/
def replaySteps {Ctx ToolResult Output : Type} (env : ExecEnv Ctx ToolResult Output) :
    List PlanStep → Ctx → List (StepResult ToolResult) →
    Option (List (StepResult ToolResult) × Ctx)
  | [], ctx, results => some (results, ctx)
  | step :: rest, ctx, results =>
      match dispatchStep env step ctx with
      | .error _ => none
      | .ok stepResult =>
          if stepResult.failure && step.critical then none
          else replaySteps env rest (env.addStepResult ctx stepResult)
            (results ++ [stepResult])

end Exec

namespace Orch

/-- The slice of `VerificationResult` the orchestrator's decide step reads:
`complete`, `should_escalate` and `escalation_reason`. -/
structure VerificationResult where
  complete : Bool
  shouldEscalate : Bool
  escalationReason : String
  deriving Repr, DecidableEq

/-- `AgentResponse` as the orchestrator constructs it.  The source dataclass
declares `status: ResponseStatus` (a required field with no default), yet the
`verification.complete` branch of `execute_task` constructs
`AgentResponse(result=..., verification=..., trace=...)` without a status;
`status` is therefore modelled as an `Option`, `none` when the constructor
call omits it.  Fields the source constructor calls never set
(`task_id`, `recommendations`, ...) are elided. -/
structure AgentResponse (ExecResult Trace : Type) where
  status : Option String := none
  result : Option ExecResult := none
  verification : Option VerificationResult := none
  reason : Option String := none
  trace : Trace
  deriving Repr, DecidableEq

/-- Collaborators of `AgentOrchestrator.execute_task` whose bodies the source
leaves abstract: context initialization (meta-blueprint load, domain
classification, `ExecutionContext(...)`), `gather_context`,
`planner.create_plan`, `executor.execute_plan` (which also mutates the
context through `add_step_result`, hence the returned pair),
`verifier.verify`, `context.update_from_verification` and the context's
`trace` field. -/
structure OrchEnv (Task Ctx Gathered Plan ExecResult Trace : Type) where
  initContext : Task → Ctx
  gatherContext : Ctx → Gathered
  createPlan : Task → Gathered → Nat → Plan
  executePlan : Plan → Ctx → ExecResult × Ctx
  verify : ExecResult → Plan → Ctx → VerificationResult
  updateFromVerification : Ctx → VerificationResult → Ctx
  trace : Ctx → Trace

/-- The `max_iterations = 10` of `execute_task`. -/
def maxIterations : Nat := 10

/-- The `for iteration in range(max_iterations)` loop of
`AgentOrchestrator.execute_task` (geisinger-module-design.md lines 102-169):
gather, plan, act, verify; if `verification.complete` return
`AgentResponse(result=..., verification=..., trace=...)` (no status set by
the source); elif `verification.should_escalate` return status ESCALATED with
the escalation reason; else update the context from the verification and
continue; when the loop exhausts, return status MAX_ITERATIONS with the
trace.  `remaining` counts the iterations left, `iteration` is the source's
loop index. -/
def agentLoop {Task Ctx Gathered Plan ExecResult Trace : Type}
    (env : OrchEnv Task Ctx Gathered Plan ExecResult Trace) (task : Task) :
    Nat → Nat → Ctx → AgentResponse ExecResult Trace
  | 0, _, ctx => { status := some "MAX_ITERATIONS", trace := env.trace ctx }
  | remaining + 1, iteration, ctx =>
      let gathered := env.gatherContext ctx
      let plan := env.createPlan task gathered iteration
      let pr := env.executePlan plan ctx
      let executionResult := pr.1
      let ctx' := pr.2
      let verification := env.verify executionResult plan ctx'
      if verification.complete then
        { result := some executionResult, verification := some verification,
          trace := env.trace ctx' }
      else if verification.shouldEscalate then
        { status := some "ESCALATED", reason := some verification.escalationReason,
          trace := env.trace ctx' }
      else
        agentLoop env task remaining (iteration + 1)
          (env.updateFromVerification ctx' verification)

/-- `AgentOrchestrator.execute_task`: initialize the execution context and run
the loop for `max_iterations` iterations starting at iteration 0. -/
def executeTask {Task Ctx Gathered Plan ExecResult Trace : Type}
    (env : OrchEnv Task Ctx Gathered Plan ExecResult Trace) (task : Task) :
    AgentResponse ExecResult Trace :=
  agentLoop env task maxIterations 0 (env.initContext task)

/-- The context reached after running a given number of non-terminating loop
iterations (the else branch of the decide step).  Proof scaffolding used to
name the final trace when the loop exhausts `max_iterations`. -/
def ctxAfter {Task Ctx Gathered Plan ExecResult Trace : Type}
    (env : OrchEnv Task Ctx Gathered Plan ExecResult Trace) (task : Task) :
    Nat → Nat → Ctx → Ctx
  | 0, _, ctx => ctx
  | remaining + 1, iteration, ctx =>
      let gathered := env.gatherContext ctx
      let plan := env.createPlan task gathered iteration
      let pr := env.executePlan plan ctx
      let ctx' := pr.2
      let verification := env.verify pr.1 plan ctx'
      ctxAfter env task remaining (iteration + 1)
        (env.updateFromVerification ctx' verification)

end Orch

namespace Compaction

/-- The slice of `WorkingMemory` that `compact_working_memory` reads: the
conversation history, the tool-result cache, and the designated critical
subset (safety-relevant facts, open decisions, pending approvals) that
`_extract_critical_data` is to preserve.  `task_state` and `error_history`
are elided. -/
structure WorkingMemory where
  conversationHistory : List String
  toolResults : List (String × String)
  criticalItems : List String
  deriving Repr, DecidableEq

/-- `CompactMemory` as constructed by `compact_working_memory`. -/
structure CompactMemory where
  criticalData : List String
  conversationSummary : String
  toolSummary : String
  originalSize : Nat
  compressedSize : Nat
  deriving Repr, DecidableEq

/-- The `CompactionError` raised when post-compaction verification fails. -/
structure CompactionError where
  msg : String
  deriving Repr, DecidableEq

/-- `CompactionResult`: the compacted memory and the recorded compression
factor (`original_size / compressed_size`, integer division here). -/
structure CompactionResult where
  compactMemory : CompactMemory
  compressionFactor : Nat
  deriving Repr, DecidableEq

/-- Helpers of `CompactionService` whose bodies the source leaves abstract:
`_extract_critical_data`, `_summarize_conversation` (an LLM call taking the
compression-ratio argument), `_compress_tool_results`,
`working_memory.count_tokens()` and `_count_tokens`. -/
structure CompactionService where
  extractCriticalData : WorkingMemory → List String
  summarizeConversation : List String → Nat → String
  compressToolResults : List (String × String) → String
  countMemoryTokens : WorkingMemory → Nat
  countTokens : List String → String → String → Nat

/-- Modelled from the spec: `_verify_no_data_loss` has no body anywhere in the
repository (only this call site exists).  Spec section 4.6 says compaction
"verifies after compaction that no critical item was lost", so the check is
that every designated critical item of the working memory is still present in
the compacted memory's critical data. -/
def verifyNoDataLoss (wm : WorkingMemory) (cm : CompactMemory) : Bool :=
  wm.criticalItems.all fun item => cm.criticalData.contains item

/-- `CompactionService.compact_working_memory` (geisinger-module-design.md
lines 652-708): extract the critical data, summarize the conversation at
fixed ratio 10, compress the tool results, build the `CompactMemory`, verify
no safety-critical data was lost, raise `CompactionError` when verification
fails, and otherwise return the `CompactionResult`.  The `targetTokens`
argument (default 10000 in the source) is not referenced by the shown body. -/
def compactWorkingMemory (svc : CompactionService) (wm : WorkingMemory)
    (targetTokens : Nat) : Except CompactionError CompactionResult :=
  let criticalData := svc.extractCriticalData wm
  let conversationSummary := svc.summarizeConversation wm.conversationHistory 10
  let toolSummary := svc.compressToolResults wm.toolResults
  let compactMemory : CompactMemory :=
    { criticalData := criticalData
      conversationSummary := conversationSummary
      toolSummary := toolSummary
      originalSize := svc.countMemoryTokens wm
      compressedSize := svc.countTokens criticalData conversationSummary toolSummary }
  if verifyNoDataLoss wm compactMemory then
    .ok { compactMemory := compactMemory,
          compressionFactor := compactMemory.originalSize / compactMemory.compressedSize }
  else
    .error { msg := "Critical data lost" }

end Compaction

namespace ToolRun

/-- The slice of `ToolSpecification` that `ToolExecutor.execute` reads. -/
structure ToolSpec where
  id : String
  mcpEndpoint : String
  requiresConsent : Bool
  cacheable : Bool
  cacheTtl : Nat
  parameterSchema : String
  slaTimeout : Nat
  deriving Repr, DecidableEq

/-- Result of `security.check_authorization`. -/
structure AuthResult where
  authorized : Bool
  reason : String
  credentials : String
  deriving Repr, DecidableEq

/-- Result of `security.get_consent`. -/
structure Consent where
  granted : Bool
  deriving Repr, DecidableEq

/-- `ToolResult` as `ToolExecutor.execute` produces it: either the verified
result of the MCP call, or the FAILED result built from a caught `MCPError`. -/
structure ToolResult where
  status : String := "SUCCESS"
  error : Option String := none
  toolId : String
  data : String := ""
  deriving Repr, DecidableEq

/-- The refusals `ToolExecutor.execute` raises before any execution:
`UnauthorizedError` and `ConsentDeniedError`. -/
inductive ExecRefusal where
  | unauthorizedError (reason : String)
  | consentDeniedError
  deriving Repr, DecidableEq

/-- Raw result of `mcp.call_tool`. -/
structure MCPResult where
  data : String
  deriving Repr, DecidableEq

/-- The `MCPError` the source catches around the MCP call. -/
structure MCPError where
  msg : String
  deriving Repr, DecidableEq

/-- Observable side-effecting operations of `ToolExecutor.execute`, in the
order the source performs them: the result-cache lookup, the MCP tool call,
and the cache write.  An execution whose event list is empty touched none of
them. -/
inductive CacheEvent where
  | cacheRead (hit : Bool)
  | mcpCall
  | cacheWrite
  deriving Repr, DecidableEq

/-- Collaborators of `ToolExecutor` whose bodies the source leaves abstract:
`security.check_authorization`, `security.get_consent`,
`_validate_parameters`, `_generate_cache_key`, `mcp.call_tool` (taking the
endpoint, parameters, timeout and credentials) and `_verify_result`. -/
structure ToolExecEnv (User : Type) where
  checkAuthorization : User → ToolSpec → String → AuthResult
  getConsent : User → ToolSpec → List (String × String) → Consent
  validateParameters : List (String × String) → String → List (String × String)
  generateCacheKey : ToolSpec → List (String × String) → String
  mcpCallTool : String → List (String × String) → Nat → String → Except MCPError MCPResult
  verifyResult : MCPResult → ToolSpec → ToolResult

/-- `ToolExecutor.execute` (geisinger-module-design.md lines 884-968), with
the result cache passed and returned explicitly and an event list recording
the cache read, the MCP call and the cache write: (1) authorization check,
raising `UnauthorizedError` when not authorized; (2) consent check when
`tool_spec.requires_consent`, raising `ConsentDeniedError` when not granted;
(3) parameter validation; (4) cache lookup, returning a hit; (5) the MCP call;
(6) result verification; (7) cache write when `tool_spec.cacheable`; a caught
`MCPError` becomes a FAILED `ToolResult`. -/
def ToolExecutor.execute {User : Type} (env : ToolExecEnv User) (toolSpec : ToolSpec)
    (parameters : List (String × String)) (user : User)
    (resultCache : List (String × ToolResult)) :
    Except ExecRefusal ToolResult × List (String × ToolResult) × List CacheEvent :=
  let authResult := env.checkAuthorization user toolSpec "execute"
  if !authResult.authorized then
    (.error (.unauthorizedError authResult.reason), resultCache, [])
  else if toolSpec.requiresConsent && !(env.getConsent user toolSpec parameters).granted then
    (.error .consentDeniedError, resultCache, [])
  else
    let validatedParams := env.validateParameters parameters toolSpec.parameterSchema
    let cacheKey := env.generateCacheKey toolSpec validatedParams
    match resultCache.lookup cacheKey with
    | some cached => (.ok cached, resultCache, [.cacheRead true])
    | none =>
        match env.mcpCallTool toolSpec.mcpEndpoint validatedParams
            toolSpec.slaTimeout authResult.credentials with
        | .ok mcpResult =>
            let verifiedResult := env.verifyResult mcpResult toolSpec
            if toolSpec.cacheable then
              (.ok verifiedResult, (cacheKey, verifiedResult) :: resultCache,
               [.cacheRead false, .mcpCall, .cacheWrite])
            else
              (.ok verifiedResult, resultCache, [.cacheRead false, .mcpCall])
        | .error e =>
            (.ok { status := "FAILED", error := some e.msg, toolId := toolSpec.id },
             resultCache, [.cacheRead false, .mcpCall])

end ToolRun

namespace Exec

/-- Concrete executor environment: the tool "good" succeeds, every other tool
raises `ToolExecutionError("boom")`; the context counts processed steps. -/
def envBoom : ExecEnv Nat String Nat where
  toolExecute := fun id _ _ =>
    if id = "good" then .ok "done" else .error (.toolExecutionError "boom")
  executeParallel := fun s _ => .ok { step := s, status := .SUCCESS, output := some "par" }
  addStepResult := fun c _ => c + 1
  aggregateOutputs := fun rs => rs.length

/-- Concrete executor environment whose tool raises an exception that is not
a `ToolExecutionError`. -/
def envRaise : ExecEnv Nat String Nat where
  toolExecute := fun _ _ _ => .error (.otherError "ValueError: boom")
  executeParallel := fun s _ => .ok { step := s, status := .SUCCESS, output := some "par" }
  addStepResult := fun c _ => c + 1
  aggregateOutputs := fun rs => rs.length

/-- A non-critical sequential step calling the tool "good". -/
def stepGood : PlanStep :=
  { toolId := "good", parameters := [], critical := false, parallelSafe := false }

/-- A critical sequential step calling the failing tool "bad". -/
def stepBad : PlanStep :=
  { toolId := "bad", parameters := [], critical := true, parallelSafe := false }

/-- A three-step plan whose middle step is critical and fails. -/
def planBoom : Plan := { steps := [stepGood, stepBad, stepGood] }

/-- A non-critical sequential step for the propagation counterexample. -/
def stepPlain : PlanStep :=
  { toolId := "t", parameters := [], critical := false, parallelSafe := false }

end Exec

namespace Orch

/-- Concrete orchestrator environment whose verifier never reports complete or
escalate; the context counts completed iterations and is its own trace. -/
def envNeverDone : OrchEnv Unit Nat Unit Unit Nat Nat where
  initContext := fun _ => 0
  gatherContext := fun _ => ()
  createPlan := fun _ _ _ => ()
  executePlan := fun _ c => (c, c)
  verify := fun _ _ _ => { complete := false, shouldEscalate := false, escalationReason := "" }
  updateFromVerification := fun c _ => c + 1
  trace := fun c => c

/-- Concrete orchestrator environment whose verifier reports complete on the
first iteration; execution produces the result 7. -/
def envFirstComplete : OrchEnv Unit Nat Unit Unit Nat Nat where
  initContext := fun _ => 0
  gatherContext := fun _ => ()
  createPlan := fun _ _ _ => ()
  executePlan := fun _ c => (7, c)
  verify := fun _ _ _ => { complete := true, shouldEscalate := false, escalationReason := "" }
  updateFromVerification := fun c _ => c + 1
  trace := fun c => c

end Orch

namespace Compaction

/-- Concrete compaction service: the extractor returns the designated
critical items, summaries are constants, sizes are constants. -/
def svcConst : CompactionService where
  extractCriticalData := fun wm => wm.criticalItems
  summarizeConversation := fun _ _ => "summary"
  compressToolResults := fun _ => "tools"
  countMemoryTokens := fun _ => 100
  countTokens := fun _ _ _ => 10

/-- A concrete working memory with one designated critical item. -/
def wmOne : WorkingMemory :=
  { conversationHistory := ["hello"], toolResults := [("k", "v")],
    criticalItems := ["pending approval"] }

/-- The compaction result `compactWorkingMemory svcConst wmOne 10000`
produces. -/
def resOne : CompactionResult :=
  { compactMemory :=
      { criticalData := ["pending approval"], conversationSummary := "summary",
        toolSummary := "tools", originalSize := 100, compressedSize := 10 },
    compressionFactor := 10 }

end Compaction

namespace ToolRun

/-- Concrete security environment that denies authorization to everyone. -/
def envDeny : ToolExecEnv Unit where
  checkAuthorization := fun _ _ _ =>
    { authorized := false, reason := "not permitted", credentials := "" }
  getConsent := fun _ _ _ => { granted := true }
  validateParameters := fun p _ => p
  generateCacheKey := fun spec _ => spec.id
  mcpCallTool := fun _ _ _ _ => .ok { data := "x" }
  verifyResult := fun r spec => { toolId := spec.id, data := r.data }

/-- Concrete security environment that authorizes but never grants consent. -/
def envNoConsent : ToolExecEnv Unit where
  checkAuthorization := fun _ _ _ =>
    { authorized := true, reason := "", credentials := "cred" }
  getConsent := fun _ _ _ => { granted := false }
  validateParameters := fun p _ => p
  generateCacheKey := fun spec _ => spec.id
  mcpCallTool := fun _ _ _ _ => .ok { data := "x" }
  verifyResult := fun r spec => { toolId := spec.id, data := r.data }

/-- A consent-requiring, cacheable tool specification. -/
def specLookup : ToolSpec :=
  { id := "lookup", mcpEndpoint := "mcp-lookup", requiresConsent := true,
    cacheable := true, cacheTtl := 300, parameterSchema := "schema",
    slaTimeout := 30 }

/-- A cached result stored under the key `specLookup` generates. -/
def cachedHit : ToolResult := { toolId := "lookup", data := "cached" }

end ToolRun

namespace SelfVerify

/-- C1: for every `ExecutionResult`, `Plan` and context, `SelfVerifier.verify`
returns a `VerificationResult` whose `passed` flag is the conjunction of the
six checks' `passed` flags, whose `complete` flag equals `passed` AND the
plan having no remaining steps, and whose `shouldEscalate` flag is true
exactly when some check both failed and is critical — so a single critical
check failure forces `shouldEscalate = true` regardless of every other
check's outcome. -/
theorem verify_aggregate_rule {Result Ctx : Type} (sv : SelfVerifier Result Ctx)
    (result : Result) (plan : Plan) (ctx : Ctx) :
    ((sv.verify result plan ctx).passed =
      ((sv.checkPolicyCompliance result ctx).passed &&
       (sv.checkCompleteness result plan.requirements).passed &&
       (sv.checkConsistency result ctx).passed &&
       (sv.checkQuality result ctx).passed &&
       (sv.assessConfidence result ctx).passed &&
       (sv.checkSafety result ctx).passed))
  ∧ ((sv.verify result plan ctx).complete =
      ((sv.verify result plan ctx).passed && !plan.hasMoreSteps))
  ∧ ((sv.verify result plan ctx).shouldEscalate = true ↔
      ∃ c ∈ (sv.verify result plan ctx).checks, c.failed = true ∧ c.critical = true)
  ∧ (∀ c ∈ (sv.verify result plan ctx).checks, c.passed = false → c.critical = true →
      (sv.verify result plan ctx).shouldEscalate = true) := by
  have hiff : (sv.verify result plan ctx).shouldEscalate = true ↔
      ∃ c ∈ (sv.verify result plan ctx).checks, c.failed = true ∧ c.critical = true := by
    simp [SelfVerifier.verify, List.any_eq_true, Bool.and_eq_true]
  refine ⟨?_, rfl, hiff, ?_⟩
  · simp [SelfVerifier.verify, Bool.and_assoc]
  · intro c hc hp hcr
    exact hiff.mpr ⟨c, hc, by simp [Check.failed, hp], hcr⟩

end SelfVerify

namespace Tier

/-- C2 counterexample: the classifier does not compute the spec's four-row
decision table.  On (MEDIUM, NONE, RESTRICTED) the table's fourth row gives
tier 4 while the code classifies tier 3 (its third branch fires on the PHI
sensitivity); on (MEDIUM, FULL, RESTRICTED) the table matches no row at all
while the code classifies tier 2 (its MEDIUM branch carries no sensitivity
guard). -/
theorem classify_spec_table_counterexample :
    specTierTable { impact := .MEDIUM, reversibility := .NONE,
                    dataSensitivity := .RESTRICTED } = some .TIER_4 ∧
    classifyAction { impact := .MEDIUM, reversibility := .NONE,
                     dataSensitivity := .RESTRICTED } = .TIER_3 ∧
    specTierTable { impact := .MEDIUM, reversibility := .FULL,
                    dataSensitivity := .RESTRICTED } = none ∧
    classifyAction { impact := .MEDIUM, reversibility := .FULL,
                     dataSensitivity := .RESTRICTED } = .TIER_2 := by
  decide

/-- C2 amended: the classifier computes its own top-down cascade, characterized
tier by tier — tier 1 exactly on (LOW, FULL); tier 2 exactly on (MEDIUM, FULL
or PARTIAL) regardless of sensitivity; tier 3 exactly when neither of those
fires and the impact is HIGH or the sensitivity RESTRICTED; tier 4 on
everything else. -/
theorem classify_action_characterization (a : Action) :
    (classifyAction a = .TIER_1 ↔ a.impact = .LOW ∧ a.reversibility = .FULL)
  ∧ (classifyAction a = .TIER_2 ↔
      a.impact = .MEDIUM ∧ (a.reversibility = .FULL ∨ a.reversibility = .PARTIAL))
  ∧ (classifyAction a = .TIER_3 ↔
      ¬(a.impact = .LOW ∧ a.reversibility = .FULL) ∧
      ¬(a.impact = .MEDIUM ∧ (a.reversibility = .FULL ∨ a.reversibility = .PARTIAL)) ∧
      (a.impact = .HIGH ∨ a.dataSensitivity = .RESTRICTED))
  ∧ (classifyAction a = .TIER_4 ↔
      ¬(a.impact = .LOW ∧ a.reversibility = .FULL) ∧
      ¬(a.impact = .MEDIUM ∧ (a.reversibility = .FULL ∨ a.reversibility = .PARTIAL)) ∧
      ¬(a.impact = .HIGH ∨ a.dataSensitivity = .RESTRICTED)) := by
  obtain ⟨i, r, s⟩ := a
  cases i <;> cases r <;> cases s <;> decide

/-- C3 counterexample: raising data sensitivity can lower the computed tier.
The action (LOW, PARTIAL) is classified tier 4 at sensitivity PUBLIC (the
code's default branch) but tier 3 at sensitivity RESTRICTED (the code's
third branch fires on the PHI sensitivity), so the RESTRICTED tier is
strictly below the PUBLIC tier. -/
theorem sensitivity_monotonicity_counterexample :
    classifyAction { impact := .LOW, reversibility := .PARTIAL,
                     dataSensitivity := .PUBLIC } = .TIER_4 ∧
    classifyAction { impact := .LOW, reversibility := .PARTIAL,
                     dataSensitivity := .RESTRICTED } = .TIER_3 ∧
    (classifyAction { impact := .LOW, reversibility := .PARTIAL,
                      dataSensitivity := .RESTRICTED }).level <
    (classifyAction { impact := .LOW, reversibility := .PARTIAL,
                      dataSensitivity := .PUBLIC }).level := by
  decide

/-- C3 amended: raising data sensitivity from PUBLIC to RESTRICTED never
lowers the computed tier for any action whose PUBLIC version does not fall to
the default tier 4; on the default-tier-4 actions the RESTRICTED version
drops to tier 3. -/
theorem sensitivity_monotonicity_on_nondefault (i : Impact) (r : Reversibility) :
    classifyAction { impact := i, reversibility := r,
                     dataSensitivity := .PUBLIC } ≠ .TIER_4 →
    (classifyAction { impact := i, reversibility := r,
                      dataSensitivity := .PUBLIC }).level ≤
    (classifyAction { impact := i, reversibility := r,
                      dataSensitivity := .RESTRICTED }).level := by
  cases i <;> cases r <;> decide

/-- Witness for the amended C3 theorem at (LOW, FULL). -/
theorem sensitivity_monotonicity_on_nondefault_witness :
    (classifyAction { impact := .LOW, reversibility := .FULL,
                      dataSensitivity := .PUBLIC }).level ≤
    (classifyAction { impact := .LOW, reversibility := .FULL,
                      dataSensitivity := .RESTRICTED }).level :=
  sensitivity_monotonicity_on_nondefault .LOW .FULL (by decide)

end Tier

namespace Budget

/-- C4 counterexample: tracked usage can exceed the declared total ceiling.
`allocate` applies its write unconditionally and `check_budget` performs no
write and rejects nothing, so after the sequence
`allocate("dynamic", 250000); check_budget("dynamic", 0)` on a fresh manager
the usage is 250000 against a 200000 ceiling. -/
theorem ceiling_exceeded_counterexample :
    (runOps {} [BudgetOp.alloc "dynamic" 250000,
                BudgetOp.check "dynamic" 0]).used = 250000 ∧
    (runOps {} [BudgetOp.alloc "dynamic" 250000,
                BudgetOp.check "dynamic" 0]).totalBudget <
    (runOps {} [BudgetOp.alloc "dynamic" 250000,
                BudgetOp.check "dynamic" 0]).used := by
  decide

/-- C4 amended: `check_budget` itself never modifies the usage counter and
`allocate` applies every write unchecked, so usage is not intrinsically
bounded; what holds is that any allocation `check_budget` has approved keeps
usage at or below 80 percent of the total ceiling, and hence below the
ceiling: if `check_budget(category, n)` returns APPROVED then
`allocate(category, n)` leaves `used ≤ 0.8 * totalBudget ≤ totalBudget`. -/
theorem approved_check_bounds_allocation (m : ContextBudgetManager)
    (category : String) (n : Nat)
    (h : (m.checkBudget category n).status = BudgetStatus.APPROVED) :
    5 * (m.allocate category n).used ≤ 4 * m.totalBudget ∧
    (m.allocate category n).used ≤ m.totalBudget := by
  have hused : (m.allocate category n).used = m.used + n := rfl
  rw [hused]
  simp only [ContextBudgetManager.checkBudget] at h
  split at h
  · simp at h
  · split at h
    · simp at h
    · omega

/-- Witness for the amended C4 theorem: on a fresh manager,
`check_budget("reasoning", 1000)` is APPROVED and the subsequent allocation
keeps usage within the ceiling. -/
theorem approved_check_bounds_allocation_witness :
    (({} : ContextBudgetManager).checkBudget "reasoning" 1000).status =
      BudgetStatus.APPROVED ∧
    (({} : ContextBudgetManager).allocate "reasoning" 1000).used ≤
      ({} : ContextBudgetManager).totalBudget :=
  ⟨by decide,
   (approved_check_bounds_allocation {} "reasoning" 1000 (by decide)).2⟩

end Budget

namespace Exec

/-- Running the executor loop over steps whose replay does not abort reaches
the replay's accumulated results and context. -/
theorem executePlanAux_of_replay {Ctx ToolResult Output : Type}
    (env : ExecEnv Ctx ToolResult Output) (pre : List PlanStep) :
    ∀ (tail : List PlanStep) (ctx : Ctx) (acc results : List (StepResult ToolResult))
      (ctx' : Ctx),
      replaySteps env pre ctx acc = some (results, ctx') →
      executePlanAux env (pre ++ tail) ctx acc = executePlanAux env tail ctx' results := by
  induction pre with
  | nil =>
      intro tail ctx acc results ctx' h
      simp only [replaySteps, Option.some.injEq, Prod.mk.injEq] at h
      rw [List.nil_append, h.1, h.2]
  | cons s ps ih =>
      intro tail ctx acc results ctx' h
      rw [List.cons_append]
      unfold replaySteps at h
      simp only [executePlanAux]
      cases hd : dispatchStep env s ctx with
      | error e => rw [hd] at h; simp at h
      | ok stepResult =>
          rw [hd] at h
          simp only at h
          by_cases hf : (stepResult.failure && s.critical) = true
          · rw [if_pos hf] at h; simp at h
          · rw [if_neg hf] at h
            simp only [if_neg hf]
            exact ih tail (env.addStepResult ctx stepResult) (acc ++ [stepResult])
              results ctx' h

/-- C5: during the Act phase, if the executor loop reaches a step whose
critical flag is set and whose execution produces a failed `StepResult`, then
`execute_plan` returns an `ExecutionResult` of status FAILED containing
exactly the step results produced so far plus that failing result — the
returned value does not depend on the remaining steps `rest`, so none of them
is executed. -/
theorem critical_failure_aborts_plan {Ctx ToolResult Output : Type}
    (env : ExecEnv Ctx ToolResult Output) (plan : Plan) (ctx : Ctx)
    (pre rest : List PlanStep) (step : PlanStep)
    (results : List (StepResult ToolResult)) (ctx' : Ctx)
    (sres : StepResult ToolResult)
    (hsteps : plan.steps = pre ++ step :: rest)
    (hpre : replaySteps env pre ctx [] = some (results, ctx'))
    (hstep : dispatchStep env step ctx' = .ok sres)
    (hfail : sres.failure = true) (hcrit : step.critical = true) :
    executePlan env plan ctx =
      .ok { steps := results ++ [sres], status := .FAILED, output := none,
            failureReason := sres.error } := by
  unfold executePlan
  rw [hsteps, executePlanAux_of_replay env pre (step :: rest) ctx [] results ctx' hpre]
  unfold executePlanAux
  rw [hstep]
  simp only [hfail, hcrit, Bool.and_self, if_true]

/-- Witness for C5: in `planBoom` the first step succeeds, the second is
critical and fails with a `ToolExecutionError`, and `execute_plan` returns
FAILED with exactly those two step results — the third step is never run. -/
theorem critical_failure_aborts_plan_witness :
    executePlan envBoom planBoom 0 =
      .ok { steps := [{ step := stepGood, status := .SUCCESS, output := some "done" },
                      { step := stepBad, status := .FAILED, error := some "boom",
                        failure := true }],
            status := .FAILED, output := none, failureReason := some "boom" } :=
  critical_failure_aborts_plan envBoom planBoom 0 [stepGood] [stepGood] stepBad
    [{ step := stepGood, status := .SUCCESS, output := some "done" }] 1
    { step := stepBad, status := .FAILED, error := some "boom", failure := true }
    rfl rfl rfl rfl rfl

/-- C7 counterexample: an exception that is not a `ToolExecutionError` is not
converted into a failed `StepResult` — `_execute_sequential` re-raises it and
it propagates uncaught out of `execute_plan`. -/
theorem nontool_exception_propagates :
    executeSequential envRaise stepPlain 0 =
      .error (.otherError "ValueError: boom") ∧
    executePlan envRaise { steps := [stepPlain] } 0 =
      .error (.otherError "ValueError: boom") :=
  ⟨rfl, rfl⟩

/-- C7 amended: only exceptions of type `ToolExecutionError` are converted at
the step boundary — whenever the tool call raises a `ToolExecutionError`,
`_execute_sequential` returns a `StepResult` with status FAILED,
`failure = true` and the exception message as its error; other exception
types propagate (see the counterexample). -/
theorem tool_execution_error_converted {Ctx ToolResult Output : Type}
    (env : ExecEnv Ctx ToolResult Output) (step : PlanStep) (ctx : Ctx) (msg : String)
    (h : env.toolExecute step.toolId step.parameters ctx =
      .error (.toolExecutionError msg)) :
    executeSequential env step ctx =
      .ok { step := step, status := .FAILED, error := some msg, failure := true } := by
  unfold executeSequential
  rw [h]

/-- Witness for the amended C7 theorem: the failing tool "bad" raises a
`ToolExecutionError` and `_execute_sequential` converts it. -/
theorem tool_execution_error_converted_witness :
    executeSequential envBoom stepBad 0 =
      .ok { step := stepBad, status := .FAILED, error := some "boom",
            failure := true } :=
  tool_execution_error_converted envBoom stepBad 0 "boom" rfl

end Exec

namespace Orch

/-- C9: if every loop iteration's verification is neither complete nor
escalating, `execute_task` returns a status MAX_ITERATIONS response — not
ESCALATED and not SUCCESS — carrying the trace of the context reached after
all `max_iterations` iterations, with no result or verification attached. -/
theorem exhausted_iterations_return_max_iterations
    {Task Ctx Gathered Plan ExecResult Trace : Type}
    (env : OrchEnv Task Ctx Gathered Plan ExecResult Trace) (task : Task)
    (hv : ∀ (executionResult : ExecResult) (plan : Plan) (ctx : Ctx),
      (env.verify executionResult plan ctx).complete = false ∧
      (env.verify executionResult plan ctx).shouldEscalate = false) :
    executeTask env task =
      { status := some "MAX_ITERATIONS", result := none, verification := none,
        reason := none,
        trace := env.trace (ctxAfter env task maxIterations 0 (env.initContext task)) } ∧
    (executeTask env task).status ≠ some "ESCALATED" ∧
    (executeTask env task).status ≠ some "SUCCESS" := by
  have main : ∀ (remaining iteration : Nat) (ctx : Ctx),
      agentLoop env task remaining iteration ctx =
        { status := some "MAX_ITERATIONS", result := none, verification := none,
          reason := none,
          trace := env.trace (ctxAfter env task remaining iteration ctx) } := by
    intro remaining
    induction remaining with
    | zero => intro iteration ctx; rfl
    | succ r ih =>
        intro iteration ctx
        have h := hv (env.executePlan (env.createPlan task (env.gatherContext ctx)
          iteration) ctx).1
          (env.createPlan task (env.gatherContext ctx) iteration)
          (env.executePlan (env.createPlan task (env.gatherContext ctx) iteration) ctx).2
        simp only [agentLoop, ctxAfter, h.1, h.2, Bool.false_eq_true, if_false]
        exact ih (iteration + 1) _
  refine ⟨main maxIterations 0 (env.initContext task), ?_, ?_⟩ <;>
    rw [executeTask, main maxIterations 0 (env.initContext task)] <;> simp

/-- Witness for C9: with a verifier that never reports complete or escalate
and a context that counts iterations, `execute_task` returns
MAX_ITERATIONS with the trace of all ten iterations. -/
theorem exhausted_iterations_return_max_iterations_witness :
    executeTask envNeverDone () =
      { status := some "MAX_ITERATIONS", result := none, verification := none,
        reason := none, trace := 10 } :=
  (exhausted_iterations_return_max_iterations envNeverDone ()
    (fun _ _ _ => ⟨rfl, rfl⟩)).1.trans rfl

/-- C6, evaluating the code at the failing input: with a verifier whose first
verification is complete, `execute_task` takes the `verification.complete`
branch, which returns the result, the verification and the trace and executes
no further iteration — but the constructed `AgentResponse` carries no status
at all (the source omits the required `status` field in that constructor
call), so its status is not SUCCESS. -/
theorem complete_branch_missing_success_status :
    executeTask envFirstComplete () =
      { status := none, result := some 7,
        verification := some { complete := true, shouldEscalate := false,
                               escalationReason := "" },
        reason := none, trace := 0 } ∧
    (executeTask envFirstComplete ()).status ≠ some "SUCCESS" := by
  refine ⟨rfl, ?_⟩
  decide

end Orch

namespace Compaction

/-- C8: for every working memory and target size, whenever
`compact_working_memory` returns a `CompactionResult` (rather than raising
`CompactionError`), every designated critical item of the input working
memory is still present in the returned compacted memory's critical data;
the only other outcome is the `CompactionError`, which carries no compacted
memory. -/
theorem compaction_preserves_critical_items (svc : CompactionService)
    (wm : WorkingMemory) (targetTokens : Nat) (res : CompactionResult)
    (h : compactWorkingMemory svc wm targetTokens = .ok res) :
    ∀ item ∈ wm.criticalItems, item ∈ res.compactMemory.criticalData := by
  intro item hitem
  simp only [compactWorkingMemory] at h
  split at h
  · next hv =>
      cases h
      simp only [verifyNoDataLoss, List.all_eq_true] at hv
      have := hv item hitem
      simpa using this
  · simp at h

/-- Witness for C8: compaction of `wmOne` succeeds and its designated critical
item "pending approval" survives into the compacted memory. -/
theorem compaction_preserves_critical_items_witness :
    "pending approval" ∈ resOne.compactMemory.criticalData :=
  compaction_preserves_critical_items svcConst wmOne 10000 resOne rfl
    "pending approval" (by simp [wmOne])

end Compaction

namespace ToolRun

/-- C10: the authorization check, and for a consent-requiring tool the consent
check, run before the result cache is consulted and before any execution.
Whatever the cache contains — including a cached result for this very tool
and parameters — an unauthorized caller receives `UnauthorizedError` and a
non-consenting one `ConsentDeniedError`, the cache is returned unchanged, and
the event list is empty: no cache read, no MCP tool call and no cache write
happened. -/
theorem auth_consent_precede_cache {User : Type} (env : ToolExecEnv User)
    (toolSpec : ToolSpec) (parameters : List (String × String)) (user : User)
    (resultCache : List (String × ToolResult)) :
    ((env.checkAuthorization user toolSpec "execute").authorized = false →
      ToolExecutor.execute env toolSpec parameters user resultCache =
        (.error (.unauthorizedError
            (env.checkAuthorization user toolSpec "execute").reason),
         resultCache, []))
  ∧ ((env.checkAuthorization user toolSpec "execute").authorized = true →
      toolSpec.requiresConsent = true →
      (env.getConsent user toolSpec parameters).granted = false →
      ToolExecutor.execute env toolSpec parameters user resultCache =
        (.error .consentDeniedError, resultCache, [])) := by
  constructor
  · intro h
    simp [ToolExecutor.execute, h]
  · intro h1 h2 h3
    simp [ToolExecutor.execute, h1, h2, h3]

/-- Witness for C10: an unauthorized caller is refused with the security
service's reason even though the cache holds a result under the exact key
this call would use, and the refused call reads nothing, executes nothing and
writes nothing. -/
theorem auth_consent_precede_cache_witness :
    ToolExecutor.execute envDeny specLookup [] () [("lookup", cachedHit)] =
      (.error (.unauthorizedError "not permitted"), [("lookup", cachedHit)], []) :=
  (auth_consent_precede_cache envDeny specLookup [] () [("lookup", cachedHit)]).1 rfl

end ToolRun
